import Mathlib

/-!
Shallow embedding of the `TokenCredentialProvider` of the vault-secrets-operator
credential-provider core, together with proofs of its specified properties.

Modelling conventions:
* File contents are `String`s; the file system is a total function from paths to
  `Except String String` (`Except.error cause` models any I/O failure with its
  underlying cause, `Except.ok data` models a successful full read).
* Go pointers that may be `nil` become `Option`; a nil-pointer dereference
  (a panic, not an error return) is modelled by the whole computation returning
  `none` at the outer `Option` layer.
* Go's multiple-value return `(map[string]interface, error)` of `GetCreds` is
  kept as an explicit pair `Option Creds × Option ProviderError`, so that the
  "nil map on error" behaviour of the source is visible in the model rather
  than being forced by an `Except` type.
* `Init` mutates its receiver; it is embedded as explicit state passing,
  returning the updated provider together with the optional error.
-/

namespace Vault

/-- Token sub-configuration of an authentication configuration: a single
file-path field, as in the external API type consumed by the provider. -/
structure VaultAuthConfigToken where
  FilePath : String
deriving DecidableEq

/-- Spec part of an authentication configuration: the method discriminator and
the (possibly absent, i.e. nil) token sub-configuration. -/
structure VaultAuthSpec where
  Method : String
  Token : Option VaultAuthConfigToken
deriving DecidableEq

/-- Authentication configuration object. -/
structure VaultAuth where
  Spec : VaultAuthSpec
deriving DecidableEq

/-- Modelled from the spec: the token sub-configuration's structural validation
lives in the external API package (not present under `src/`); the spec says it
"fails when `FilePath` is empty" and the tests expect the underlying cause
message to read "empty filePath". -/
def VaultAuthConfigToken.Validate (c : VaultAuthConfigToken) : Except String Unit :=
  if c.FilePath = "" then Except.error "empty filePath" else Except.ok ()

/-- Character predicate of Go's `unicode.IsSpace`, used by `strings.TrimSpace`:
space, tab, newline, vertical tab, form feed, carriage return, and the
remaining Unicode white-space code points. -/
def goIsSpace (c : Char) : Bool :=
  c = '\t' || c = '\n' || c = '\x0b' || c = '\x0c' || c = '\r' || c = ' '
    || c = '\x85' || c = '\xa0' || c = '\u1680'
    || ('\u2000' ≤ c && c ≤ '\u200a')
    || c = '\u2028' || c = '\u2029' || c = '\u202f' || c = '\u205f' || c = '\u3000'

/-- List-level trimming: drop white space from the front, then from the back. -/
def trimSpaceList (l : List Char) : List Char :=
  ((l.dropWhile goIsSpace).reverse.dropWhile goIsSpace).reverse

/-- Go's `strings.TrimSpace`: remove all leading and trailing white space. -/
def trimSpace (s : String) : String :=
  String.mk (trimSpaceList s.data)

/-- Error taxonomy of the provider, with the wrapped payloads the source
attaches via its format strings: `ConfigurationInvalid` wraps the validation
cause, `FileUnreadable` wraps the path and the underlying I/O cause,
`EmptyOrWhitespaceToken` carries the path. -/
inductive ProviderError where
  | ConfigurationMissing : ProviderError
  | ConfigurationInvalid (cause : String) : ProviderError
  | EmptyFilePath : ProviderError
  | FileUnreadable (path : String) (cause : String) : ProviderError
  | EmptyOrWhitespaceToken (path : String) : ProviderError
deriving DecidableEq

/-- Rendered message of each error, exactly as produced by the source's
format strings. -/
def errMessage : ProviderError → String
  | ProviderError.ConfigurationMissing => "token auth method not configured"
  | ProviderError.ConfigurationInvalid cause =>
      "invalid token auth configuration: " ++ cause
  | ProviderError.EmptyFilePath => "file path is empty"
  | ProviderError.FileUnreadable path cause =>
      "failed to read token file " ++ path ++ ": " ++ cause
  | ProviderError.EmptyOrWhitespaceToken path =>
      "token file " ++ path ++ " is empty or contains only whitespace"

/-- A string `sub` occurs somewhere inside `msg`. -/
def containsStr (msg sub : String) : Prop :=
  ∃ a b, msg = a ++ sub ++ b

deriving instance DecidableEq for Except

/-- The ambient file system: path to full contents, or an I/O failure cause. -/
abbrev FileSystem := String → Except String String

/-- Credential set: the `map[string]interface` returned by `GetCreds`,
as an association list of string keys to opaque (string) secret values. -/
abbrev Creds := List (String × String)

/-- Provider state: the bound configuration (a Go pointer, hence `Option`),
the bound namespace, and the identifier. A freshly constructed provider has
`none`, `""`, `""`. -/
structure TokenCredentialProvider where
  authObj : Option VaultAuth
  providerNamespace : String
  uid : String
deriving DecidableEq

/-- All-fields convenience constructor. -/
def NewTokenCredentialProvider (authObj : Option VaultAuth)
    (providerNamespace : String) (uid : String) : TokenCredentialProvider :=
  { authObj := authObj, providerNamespace := providerNamespace, uid := uid }

/-- Accessor for the bound namespace. -/
def TokenCredentialProvider.GetNamespace (t : TokenCredentialProvider) : String :=
  t.providerNamespace

/-- Accessor for the identifier. -/
def TokenCredentialProvider.GetUID (t : TokenCredentialProvider) : String :=
  t.uid

/-- Body of `readTokenFile` once the two pointer dereferences
(`t.authObj` and `.Spec.Token`) have succeeded: refuse an empty path, read the
file, trim, refuse an all-white-space result, otherwise return the trimmed
token. -/
def readTokenFileBody (tok : VaultAuthConfigToken) (fs : FileSystem) :
    Except ProviderError String :=
  let filePath := tok.FilePath
  if filePath = "" then Except.error ProviderError.EmptyFilePath
  else
    match fs filePath with
    | Except.error cause =>
        Except.error (ProviderError.FileUnreadable filePath cause)
    | Except.ok data =>
        let token := trimSpace data
        if token = "" then
          Except.error (ProviderError.EmptyOrWhitespaceToken filePath)
        else Except.ok token

/-- The `readTokenFile` method. The source dereferences
`t.authObj.Spec.Token.FilePath` unconditionally, so a `nil` `authObj` or a
`nil` token sub-configuration panics: modelled by the outer `none`. -/
def TokenCredentialProvider.readTokenFile (t : TokenCredentialProvider)
    (fs : FileSystem) : Option (Except ProviderError String) :=
  match t.authObj with
  | none => none
  | some a =>
      match a.Spec.Token with
      | none => none
      | some tok => some (readTokenFileBody tok fs)

/-- The `GetCreds` method: re-read the token file from scratch; on error
return the nil map together with the error, on success the one-entry map. -/
def TokenCredentialProvider.GetCreds (t : TokenCredentialProvider)
    (fs : FileSystem) : Option (Option Creds × Option ProviderError) :=
  (t.readTokenFile fs).map fun r =>
    match r with
    | Except.error e => (none, some e)
    | Except.ok token => (some [("token", token)], none)

/-- The `Init` method as a state transformer. It checks the sub-configuration,
validates it, binds `authObj` and `providerNamespace`, performs the fail-fast
read (its argument configuration is already bound, so the read goes through
`readTokenFileBody` of the bound sub-configuration), and only on success
assigns the static identifier. -/
def TokenCredentialProvider.Init (t : TokenCredentialProvider)
    (authObj : VaultAuth) (providerNamespace : String) (fs : FileSystem) :
    TokenCredentialProvider × Option ProviderError :=
  match authObj.Spec.Token with
  | none => (t, some ProviderError.ConfigurationMissing)
  | some tok =>
      match tok.Validate with
      | Except.error err => (t, some (ProviderError.ConfigurationInvalid err))
      | Except.ok _ =>
          let t1 : TokenCredentialProvider :=
            { t with authObj := some authObj,
                     providerNamespace := providerNamespace }
          match readTokenFileBody tok fs with
          | Except.error err => (t1, some err)
          | Except.ok _ => ({ t1 with uid := "token-file-provider" }, none)

/-- `GetCreds` as a state transformer: the method body contains no assignment
to any receiver field, so the post-state is the receiver itself. -/
def TokenCredentialProvider.GetCredsSt (t : TokenCredentialProvider)
    (fs : FileSystem) :
    TokenCredentialProvider × Option (Option Creds × Option ProviderError) :=
  (t, t.GetCreds fs)

/-- Thread the provider state through `n` consecutive `GetCreds` calls. -/
def runGetCreds (t : TokenCredentialProvider) (fs : FileSystem) :
    Nat → TokenCredentialProvider
  | 0 => t
  | n + 1 => runGetCreds (t.GetCredsSt fs).1 fs n

/-! Concrete sample objects used by the witnesses below. -/

/-- Path of a sample file whose contents trim to a non-empty token. -/
def pGood : String := "/tokens/good"

/-- Path of a sample file holding the token with no surrounding white space. -/
def pPlain : String := "/tokens/plain"

/-- Path of a sample file holding the same token padded with white space. -/
def pPad : String := "/tokens/pad"

/-- Path of a sample file holding only white space. -/
def pBlank : String := "/tokens/blank"

/-- Path at which no file exists. -/
def pMissing : String := "/missing"

/-- Sample file system for the witnesses. -/
def fsW : FileSystem := fun p =>
  if p = pGood then Except.ok (" tok\n")
  else if p = pPlain then Except.ok ("tok")
  else if p = pPad then Except.ok ("  tok\n\t")
  else if p = pBlank then Except.ok (" \n\t ")
  else Except.error ("enoent")

/-- Sample configuration pointing at the good file. -/
def aGood : VaultAuth :=
  { Spec := { Method := "token", Token := some { FilePath := pGood } } }

/-- Sample configuration pointing at the plain file. -/
def aPlain : VaultAuth :=
  { Spec := { Method := "token", Token := some { FilePath := pPlain } } }

/-- Sample configuration pointing at the padded file. -/
def aPad : VaultAuth :=
  { Spec := { Method := "token", Token := some { FilePath := pPad } } }

/-- Sample configuration pointing at the white-space-only file. -/
def aBlank : VaultAuth :=
  { Spec := { Method := "token", Token := some { FilePath := pBlank } } }

/-- Sample configuration pointing at a missing file. -/
def aAbsent : VaultAuth :=
  { Spec := { Method := "token", Token := some { FilePath := pMissing } } }

/-- Sample configuration with no token sub-configuration (a nil pointer). -/
def aMissingCfg : VaultAuth :=
  { Spec := { Method := "token", Token := none } }

/-- Sample configuration whose sub-configuration fails validation. -/
def aInvalid : VaultAuth :=
  { Spec := { Method := "token", Token := some { FilePath := "" } } }

/-- A freshly constructed, unbound provider. -/
def t0 : TokenCredentialProvider :=
  { authObj := none, providerNamespace := "", uid := "" }

/-- A provider bound to the good file. -/
def tGood : TokenCredentialProvider :=
  NewTokenCredentialProvider (some aGood) ("ns") ("u")

/-- A provider bound to the missing file. -/
def tAbsent : TokenCredentialProvider :=
  NewTokenCredentialProvider (some aAbsent) ("ns") ("u")

/-! Helper lemmas about trimming. -/

/-- A list equal to its own trim is left fixed by `dropWhile` on either end. -/
lemma dropWhile_eq_self_of_trim (l : List Char) (h : trimSpaceList l = l) :
    l.dropWhile goIsSpace = l ∧ l.reverse.dropWhile goIsSpace = l.reverse := by
  have hs1 : l.dropWhile goIsSpace <:+ l := List.dropWhile_suffix _
  have hs2 : (l.dropWhile goIsSpace).reverse.dropWhile goIsSpace
      <:+ (l.dropWhile goIsSpace).reverse := List.dropWhile_suffix _
  have hlen := congrArg List.length h
  simp only [trimSpaceList, List.length_reverse] at hlen
  have hle2 := hs2.length_le
  simp only [List.length_reverse] at hle2
  have hle1 := hs1.length_le
  have hd : l.dropWhile goIsSpace = l := hs1.eq_of_length (by omega)
  refine ⟨hd, ?_⟩
  rw [hd] at hs2 hlen
  exact hs2.eq_of_length (by simp [hlen])

/-- Trimming removes the explicit two-space front padding and the
newline-tab back padding from a list that is already trimmed. -/
lemma trimSpaceList_pad (l : List Char) (h : trimSpaceList l = l) :
    trimSpaceList (' ' :: ' ' :: (l ++ ['\n', '\t'])) = l := by
  obtain ⟨h1, h2⟩ := dropWhile_eq_self_of_trim l h
  unfold trimSpaceList
  cases l with
  | nil => decide
  | cons a l' =>
    have ha : goIsSpace a = false := by
      by_contra hc
      have ha' : goIsSpace a = true := by
        cases hga : goIsSpace a with
        | false => exact absurd hga hc
        | true => rfl
      have hlen := congrArg List.length h1
      simp only [List.dropWhile_cons, ha', if_true, List.length_cons] at hlen
      have := (List.dropWhile_suffix (l := l') goIsSpace).length_le
      omega
    have hsp : goIsSpace ' ' = true := by decide
    have htab : goIsSpace '\t' = true := by decide
    have hnl : goIsSpace '\n' = true := by decide
    have hfront : List.dropWhile goIsSpace
        (' ' :: ' ' :: (a :: l' ++ ['\n', '\t']))
        = a :: (l' ++ ['\n', '\t']) := by
      simp [List.dropWhile_cons, hsp, ha]
    rw [hfront]
    have hrev : (a :: (l' ++ ['\n', '\t'])).reverse
        = '\t' :: '\n' :: (a :: l').reverse := by
      simp
    rw [hrev]
    have hback : List.dropWhile goIsSpace ('\t' :: '\n' :: (a :: l').reverse)
        = (a :: l').reverse := by
      simp only [List.dropWhile_cons, htab, hnl, if_true]
      exact h2
    rw [hback, List.reverse_reverse]

/-- String-level version: trimming ignores the sample padding. -/
lemma trimSpace_pad (S : String) (hS : trimSpace S = S) :
    trimSpace ("  " ++ S ++ "\n\t") = S := by
  have hl : trimSpaceList S.data = S.data := congrArg String.data hS
  have hdata : ("  " ++ S ++ "\n\t").data
      = ' ' :: ' ' :: (S.data ++ ['\n', '\t']) := by
    simp [String.data_append]
  unfold trimSpace
  rw [hdata, trimSpaceList_pad S.data hl]

/-- Binding a configuration with a present token sub-configuration makes
`readTokenFile` reach the body. -/
lemma readTokenFile_bound (t : TokenCredentialProvider) (a : VaultAuth)
    (tok : VaultAuthConfigToken) (ns : String) (fs : FileSystem)
    (h : a.Spec.Token = some tok) :
    ({ t with authObj := some a, providerNamespace := ns }
        : TokenCredentialProvider).readTokenFile fs
      = some (readTokenFileBody tok fs) := by
  simp [TokenCredentialProvider.readTokenFile, h]

/-! Claim theorems. -/

/-- C1: for every file whose contents trim to a non-empty string, a provider
whose bound token sub-configuration points at that file receives from
`GetCreds` exactly the one-entry credential set mapping "token" to the trimmed
contents, and no error. (A real file's path is never the empty string, hence
the non-empty-path hypothesis.) -/
theorem c1_getCreds_round_trip (t : TokenCredentialProvider) (a : VaultAuth)
    (tok : VaultAuthConfigToken) (fs : FileSystem) (data : String)
    (hA : t.authObj = some a) (hT : a.Spec.Token = some tok)
    (hp : tok.FilePath ≠ "")
    (hread : fs tok.FilePath = Except.ok data)
    (hne : trimSpace data ≠ "") :
    t.GetCreds fs = some (some [("token", trimSpace data)], none) := by
  simp [TokenCredentialProvider.GetCreds, TokenCredentialProvider.readTokenFile,
    hA, hT, readTokenFileBody, hp, hread, hne]

/-- Witness for C1 at a concrete provider and file system. -/
theorem c1_getCreds_round_trip_witness :
    tGood.GetCreds fsW = some (some [("token", trimSpace (" tok\n"))], none) :=
  c1_getCreds_round_trip tGood aGood { FilePath := pGood } fsW (" tok\n")
    rfl rfl (by decide) (by decide) (by decide)

/-- C2: case analysis of the file-read routine once the dereferences have
succeeded: an empty path fails with `EmptyFilePath`; an I/O failure fails with
`FileUnreadable` wrapping the underlying cause, the path in the message; an
empty-after-trim file fails with `EmptyOrWhitespaceToken`, the path in the
message; otherwise the trimmed contents are returned. -/
theorem c2_readTokenFile_cases (tok : VaultAuthConfigToken) (fs : FileSystem) :
    (tok.FilePath = "" →
      readTokenFileBody tok fs = Except.error ProviderError.EmptyFilePath)
  ∧ (∀ cause, tok.FilePath ≠ "" → fs tok.FilePath = Except.error cause →
      readTokenFileBody tok fs
        = Except.error (ProviderError.FileUnreadable tok.FilePath cause)
      ∧ containsStr
          (errMessage (ProviderError.FileUnreadable tok.FilePath cause))
          tok.FilePath)
  ∧ (∀ data, tok.FilePath ≠ "" → fs tok.FilePath = Except.ok data →
      trimSpace data = "" →
      readTokenFileBody tok fs
        = Except.error (ProviderError.EmptyOrWhitespaceToken tok.FilePath)
      ∧ containsStr
          (errMessage (ProviderError.EmptyOrWhitespaceToken tok.FilePath))
          tok.FilePath)
  ∧ (∀ data, tok.FilePath ≠ "" → fs tok.FilePath = Except.ok data →
      trimSpace data ≠ "" →
      readTokenFileBody tok fs = Except.ok (trimSpace data)) := by
  refine ⟨?_, ?_, ?_, ?_⟩
  · intro hp
    simp [readTokenFileBody, hp]
  · intro cause hp hio
    constructor
    · simp [readTokenFileBody, hp, hio]
    · exact ⟨"failed to read token file ", ": " ++ cause,
        String.append_assoc _ _ _⟩
  · intro data hp hio htrim
    constructor
    · simp [readTokenFileBody, hp, hio, htrim]
    · exact ⟨"token file ", " is empty or contains only whitespace", rfl⟩
  · intro data hp hio htrim
    simp [readTokenFileBody, hp, hio, htrim]

/-- Witness for C2: all four branches at concrete inputs. -/
theorem c2_readTokenFile_cases_witness :
    readTokenFileBody { FilePath := "" } fsW
      = Except.error ProviderError.EmptyFilePath
  ∧ readTokenFileBody { FilePath := pMissing } fsW
      = Except.error (ProviderError.FileUnreadable pMissing ("enoent"))
  ∧ readTokenFileBody { FilePath := pBlank } fsW
      = Except.error (ProviderError.EmptyOrWhitespaceToken pBlank)
  ∧ readTokenFileBody { FilePath := pGood } fsW
      = Except.ok (trimSpace (" tok\n")) :=
  ⟨(c2_readTokenFile_cases { FilePath := "" } fsW).1 rfl,
   ((c2_readTokenFile_cases { FilePath := pMissing } fsW).2.1 ("enoent")
      (by decide) (by decide)).1,
   ((c2_readTokenFile_cases { FilePath := pBlank } fsW).2.2.1 (" \n\t ")
      (by decide) (by decide) (by decide)).1,
   (c2_readTokenFile_cases { FilePath := pGood } fsW).2.2.2 (" tok\n")
      (by decide) (by decide) (by decide)⟩

/-- C4: whenever `GetCreds` returns with an error, the credential-set
component of its return value is the nil map. -/
theorem c4_no_partial_output (t : TokenCredentialProvider) (fs : FileSystem)
    (creds : Option Creds) (e : ProviderError)
    (h : t.GetCreds fs = some (creds, some e)) : creds = none := by
  unfold TokenCredentialProvider.GetCreds at h
  cases hr : t.readTokenFile fs with
  | none => rw [hr] at h; simp at h
  | some r =>
    rw [hr] at h
    cases r with
    | error e' =>
      simp only [Option.map_some', Option.some.injEq, Prod.mk.injEq] at h
      exact h.1.symm
    | ok tokv =>
      simp only [Option.map_some', Option.some.injEq, Prod.mk.injEq] at h
      exact absurd h.2 (by simp)

/-- Witness for C4 at a provider whose file is missing. -/
theorem c4_no_partial_output_witness : (none : Option Creds) = none :=
  c4_no_partial_output tAbsent fsW none
    (ProviderError.FileUnreadable pMissing ("enoent")) (by decide)

/-- C10: with a nil `authObj` or a nil token sub-configuration,
`readTokenFile` and `GetCreds` dereference nil (modelled `none`) instead of
returning an error; with a present sub-configuration, `GetCreds` is total:
it returns some pair of credential set and error. -/
theorem c10_nil_deref (t : TokenCredentialProvider) (fs : FileSystem) :
    (t.authObj = none → t.readTokenFile fs = none ∧ t.GetCreds fs = none)
  ∧ (∀ a, t.authObj = some a → a.Spec.Token = none →
      t.readTokenFile fs = none ∧ t.GetCreds fs = none)
  ∧ (∀ a tok, t.authObj = some a → a.Spec.Token = some tok →
      ∃ r, t.GetCreds fs = some r) := by
  refine ⟨?_, ?_, ?_⟩ <;> intros <;>
    simp [TokenCredentialProvider.GetCreds,
      TokenCredentialProvider.readTokenFile, *]

/-- Witness for C10 at the freshly constructed provider. -/
theorem c10_nil_deref_witness :
    t0.readTokenFile fsW = none ∧ t0.GetCreds fsW = none :=
  (c10_nil_deref t0 fsW).1 rfl

/-- A successful `Init` leaves the provider in the fully bound state. -/
lemma init_success_state (t : TokenCredentialProvider) (a : VaultAuth)
    (ns : String) (fs : FileSystem) (h : (t.Init a ns fs).2 = none) :
    (t.Init a ns fs).1
      = { authObj := some a, providerNamespace := ns,
          uid := "token-file-provider" } := by
  cases hb : a.Spec.Token with
  | none => simp [TokenCredentialProvider.Init, hb] at h
  | some tok =>
    cases hv : tok.Validate with
    | error err => simp [TokenCredentialProvider.Init, hb, hv] at h
    | ok u =>
      cases hr : readTokenFileBody tok fs with
      | error e => simp [TokenCredentialProvider.Init, hb, hv, hr] at h
      | ok s0 => simp [TokenCredentialProvider.Init, hb, hv, hr]

/-- C5: `Init` fails with `ConfigurationMissing`, whose message is the literal
"token auth method not configured", when the token sub-configuration is
absent, and with `ConfigurationInvalid` wrapping the validation cause when
validation reports failure; in both cases the result is independent of the
file system, so no file is read, and the provider is unchanged. -/
theorem c5_init_config_errors (t : TokenCredentialProvider) (a : VaultAuth)
    (ns : String) (fs : FileSystem) :
    (a.Spec.Token = none →
      t.Init a ns fs = (t, some ProviderError.ConfigurationMissing)
      ∧ errMessage ProviderError.ConfigurationMissing
          = "token auth method not configured"
      ∧ ∀ fs', t.Init a ns fs' = t.Init a ns fs)
  ∧ (∀ tok cause, a.Spec.Token = some tok →
      tok.Validate = Except.error cause →
      t.Init a ns fs = (t, some (ProviderError.ConfigurationInvalid cause))
      ∧ ∀ fs', t.Init a ns fs' = t.Init a ns fs) := by
  constructor
  · intro hT
    refine ⟨?_, rfl, ?_⟩ <;> intros <;> simp [TokenCredentialProvider.Init, hT]
  · intro tok cause hT hv
    constructor
    · simp [TokenCredentialProvider.Init, hT, hv]
    · intro fs'
      simp [TokenCredentialProvider.Init, hT, hv]

/-- Witness for C5 at the two failing sample configurations. -/
theorem c5_init_config_errors_witness :
    t0.Init aMissingCfg ("ns") fsW
      = (t0, some ProviderError.ConfigurationMissing)
  ∧ t0.Init aInvalid ("ns") fsW
      = (t0, some (ProviderError.ConfigurationInvalid ("empty filePath"))) :=
  ⟨((c5_init_config_errors t0 aMissingCfg ("ns") fsW).1 rfl).1,
   ((c5_init_config_errors t0 aInvalid ("ns") fsW).2
      { FilePath := "" } ("empty filePath") rfl rfl).1⟩

/-- C3 counterexample: when the token sub-configuration is absent, `Init`
returns an error, but a fresh `readTokenFile` on a provider bound to the same
configuration does not return an error: it dereferences nil instead. -/
theorem c3_counterexample :
    ¬ (((t0.Init aMissingCfg ("ns") fsW).2.isSome = true) ↔
        ∃ e, (NewTokenCredentialProvider (some aMissingCfg) ("ns")
            ("u")).readTokenFile fsW = some (Except.error e)) := by
  intro hiff
  obtain ⟨e, he⟩ := hiff.mp (by decide)
  simp [NewTokenCredentialProvider, TokenCredentialProvider.readTokenFile,
    aMissingCfg] at he

/-- C3 (amended): `Init` returns an error exactly when a fresh
`readTokenFile` on a provider bound to the same configuration fails to return
a token (an error return, or the nil dereference of a missing
sub-configuration); whenever the token sub-configuration is present, the
failure is precisely an error return. -/
theorem c3_init_fail_iff (t : TokenCredentialProvider) (a : VaultAuth)
    (ns uid : String) (fs : FileSystem) :
    (((t.Init a ns fs).2.isSome = true) ↔
      ∀ s, (NewTokenCredentialProvider (some a) ns uid).readTokenFile fs
        ≠ some (Except.ok s))
  ∧ (∀ tok, a.Spec.Token = some tok →
      (((t.Init a ns fs).2.isSome = true) ↔
        ∃ e, (NewTokenCredentialProvider (some a) ns uid).readTokenFile fs
          = some (Except.error e))) := by
  cases hT : a.Spec.Token with
  | none =>
    constructor
    · constructor
      · intro _ s
        simp [NewTokenCredentialProvider,
          TokenCredentialProvider.readTokenFile, hT]
      · intro _
        simp [TokenCredentialProvider.Init, hT]
    · intro tok htok
      simp [hT] at htok
  | some tok =>
    have hrn : (NewTokenCredentialProvider (some a) ns uid).readTokenFile fs
        = some (readTokenFileBody tok fs) := by
      simp [NewTokenCredentialProvider,
        TokenCredentialProvider.readTokenFile, hT]
    by_cases hv : tok.FilePath = ""
    · have hbody : readTokenFileBody tok fs
          = Except.error ProviderError.EmptyFilePath := by
        simp [readTokenFileBody, hv]
      have hinit : (t.Init a ns fs).2
          = some (ProviderError.ConfigurationInvalid ("empty filePath")) := by
        simp [TokenCredentialProvider.Init, hT,
          VaultAuthConfigToken.Validate, hv]
      constructor
      · constructor
        · intro _ s
          rw [hrn, hbody]
          simp
        · intro _
          rw [hinit]
          rfl
      · intro tok' _
        constructor
        · intro _
          exact ⟨ProviderError.EmptyFilePath, by rw [hrn, hbody]⟩
        · intro _
          rw [hinit]
          rfl
    · have hvv : tok.Validate = Except.ok () := by
        simp [VaultAuthConfigToken.Validate, hv]
      cases hb : readTokenFileBody tok fs with
      | error e =>
        have hinit : (t.Init a ns fs).2 = some e := by
          simp [TokenCredentialProvider.Init, hT, hvv, hb]
        constructor
        · constructor
          · intro _ s
            rw [hrn, hb]
            simp
          · intro _
            rw [hinit]
            rfl
        · intro tok' _
          constructor
          · intro _
            exact ⟨e, by rw [hrn, hb]⟩
          · intro _
            rw [hinit]
            rfl
      | ok s0 =>
        have hinit : (t.Init a ns fs).2 = none := by
          simp [TokenCredentialProvider.Init, hT, hvv, hb]
        constructor
        · constructor
          · intro hs
            rw [hinit] at hs
            simp at hs
          · intro hall
            exact absurd (by rw [hrn, hb]) (hall s0)
        · intro tok' _
          constructor
          · intro hs
            rw [hinit] at hs
            simp at hs
          · intro hex
            obtain ⟨e, he⟩ := hex
            rw [hrn, hb] at he
            simp at he

/-- Witness for C3 at a configuration whose token file is missing. -/
theorem c3_init_fail_iff_witness :
    (NewTokenCredentialProvider (some aAbsent) ("ns") ("u")).readTokenFile fsW
      ≠ some (Except.ok ("x")) :=
  ((c3_init_fail_iff t0 aAbsent ("ns") ("u") fsW).1.mp (by decide)) ("x")

/-- C6: a file containing the token padded with two leading spaces and a
trailing newline-tab and a file containing the bare token yield identical
credential output; the extracted token is always the trimmed file contents
(fourth conjunct of the C2 theorem; restated here through `GetCreds`). -/
theorem c6_whitespace_idempotence (S : String)
    (t1 t2 : TokenCredentialProvider) (a1 a2 : VaultAuth)
    (tok1 tok2 : VaultAuthConfigToken) (fs : FileSystem)
    (hS : trimSpace S = S)
    (hA1 : t1.authObj = some a1) (hT1 : a1.Spec.Token = some tok1)
    (hp1 : tok1.FilePath ≠ "")
    (hA2 : t2.authObj = some a2) (hT2 : a2.Spec.Token = some tok2)
    (hp2 : tok2.FilePath ≠ "")
    (hf1 : fs tok1.FilePath = Except.ok ("  " ++ S ++ "\n\t"))
    (hf2 : fs tok2.FilePath = Except.ok S) :
    ((t1.GetCreds fs).map (fun r => r.1)
      = (t2.GetCreds fs).map (fun r => r.1))
  ∧ (S ≠ "" →
      t1.GetCreds fs = some (some [("token", S)], none)
      ∧ t2.GetCreds fs = some (some [("token", S)], none)) := by
  have hpad := trimSpace_pad S hS
  constructor
  · rcases eq_or_ne S "" with hne | hne
    · subst hne
      have hpadlit : trimSpace ("  \n\t") = "" := by decide
      have e1 : t1.GetCreds fs = some (none,
          some (ProviderError.EmptyOrWhitespaceToken tok1.FilePath)) := by
        simp [TokenCredentialProvider.GetCreds,
          TokenCredentialProvider.readTokenFile, hA1, hT1,
          readTokenFileBody, hp1, hf1, hpadlit]
      have e2 : t2.GetCreds fs = some (none,
          some (ProviderError.EmptyOrWhitespaceToken tok2.FilePath)) := by
        simp [TokenCredentialProvider.GetCreds,
          TokenCredentialProvider.readTokenFile, hA2, hT2,
          readTokenFileBody, hp2, hf2, hS]
      rw [e1, e2]
      simp
    · have e1 : t1.GetCreds fs = some (some [("token", S)], none) := by
        simp [TokenCredentialProvider.GetCreds,
          TokenCredentialProvider.readTokenFile, hA1, hT1,
          readTokenFileBody, hp1, hf1, hpad, hne]
      have e2 : t2.GetCreds fs = some (some [("token", S)], none) := by
        simp [TokenCredentialProvider.GetCreds,
          TokenCredentialProvider.readTokenFile, hA2, hT2,
          readTokenFileBody, hp2, hf2, hS, hne]
      rw [e1, e2]
  · intro hne
    constructor
    · simp [TokenCredentialProvider.GetCreds,
        TokenCredentialProvider.readTokenFile, hA1, hT1,
        readTokenFileBody, hp1, hf1, hpad, hne]
    · simp [TokenCredentialProvider.GetCreds,
        TokenCredentialProvider.readTokenFile, hA2, hT2,
        readTokenFileBody, hp2, hf2, hS, hne]

/-- A provider bound to the padded sample file. -/
def tPad : TokenCredentialProvider :=
  NewTokenCredentialProvider (some aPad) ("ns") ("u")

/-- A provider bound to the plain sample file. -/
def tPlain : TokenCredentialProvider :=
  NewTokenCredentialProvider (some aPlain) ("ns") ("u")

/-- Witness for C6 at the padded and plain sample files. -/
theorem c6_whitespace_idempotence_witness :
    ((tPad.GetCreds fsW).map (fun r => r.1)
      = (tPlain.GetCreds fsW).map (fun r => r.1))
  ∧ (tPad.GetCreds fsW = some (some [("token", "tok")], none)
      ∧ tPlain.GetCreds fsW = some (some [("token", "tok")], none)) :=
  ⟨(c6_whitespace_idempotence ("tok") tPad tPlain aPad aPlain
      { FilePath := pPad } { FilePath := pPlain } fsW (by decide) rfl rfl
      (by decide) rfl rfl (by decide) (by decide) (by decide)).1,
   (c6_whitespace_idempotence ("tok") tPad tPlain aPad aPlain
      { FilePath := pPad } { FilePath := pPlain } fsW (by decide) rfl rfl
      (by decide) rfl rfl (by decide) (by decide) (by decide)).2 (by decide)⟩

/-- C7 counterexample: at a configuration whose token file is unreadable,
`Init` returns an error and yet the provider differs from its pre-call state:
`authObj` and `providerNamespace` were already rebound. -/
theorem c7_counterexample :
    ((t0.Init aAbsent ("ns") fsW).2.isSome = true)
  ∧ (t0.Init aAbsent ("ns") fsW).1 ≠ t0 := by
  decide

/-- C7 (amended): on a missing or invalid sub-configuration `Init` returns
the provider unchanged; on a failed file read it has already rebound
`authObj` and `providerNamespace` but left `uid` unchanged; on every error
`uid` is unchanged, so the provider carries the bound identifier only after
a successful `Init`. -/
theorem c7_init_state_on_error (t : TokenCredentialProvider) (a : VaultAuth)
    (ns : String) (fs : FileSystem) :
    ((t.Init a ns fs).2.isSome = true → (t.Init a ns fs).1.uid = t.uid)
  ∧ (a.Spec.Token = none → (t.Init a ns fs).1 = t)
  ∧ (∀ tok cause, a.Spec.Token = some tok →
      tok.Validate = Except.error cause → (t.Init a ns fs).1 = t)
  ∧ (∀ tok, a.Spec.Token = some tok → tok.Validate = Except.ok () →
      ∀ e, (t.Init a ns fs).2 = some e →
        (t.Init a ns fs).1
          = { t with authObj := some a, providerNamespace := ns }) := by
  refine ⟨?_, ?_, ?_, ?_⟩
  · intro herr
    cases hb : a.Spec.Token with
    | none => simp [TokenCredentialProvider.Init, hb]
    | some tok =>
      cases hv : tok.Validate with
      | error err => simp [TokenCredentialProvider.Init, hb, hv]
      | ok u =>
        cases hr : readTokenFileBody tok fs with
        | error e => simp [TokenCredentialProvider.Init, hb, hv, hr]
        | ok s0 =>
          rw [TokenCredentialProvider.Init] at herr
          simp [hb, hv, hr] at herr
  · intro hT
    simp [TokenCredentialProvider.Init, hT]
  · intro tok cause hT hv
    simp [TokenCredentialProvider.Init, hT, hv]
  · intro tok hT hv e herr
    cases hr : readTokenFileBody tok fs with
    | error e0 => simp [TokenCredentialProvider.Init, hT, hv, hr]
    | ok s0 => simp [TokenCredentialProvider.Init, hT, hv, hr] at herr

/-- Witness for C7 (amended) at the unreadable-file configuration. -/
theorem c7_init_state_on_error_witness :
    (t0.Init aAbsent ("ns") fsW).1
      = { t0 with authObj := some aAbsent, providerNamespace := "ns" } :=
  (c7_init_state_on_error t0 aAbsent ("ns") fsW).2.2.2
    { FilePath := pMissing } rfl (by decide)
    (ProviderError.FileUnreadable pMissing ("enoent")) (by decide)

/-- C8: after every successful `Init`, `GetUID` returns the fixed literal
"token-file-provider" regardless of the bound path or namespace, and any two
successfully initialized providers report the same identifier. -/
theorem c8_uid_static (t t' : TokenCredentialProvider) (a a' : VaultAuth)
    (ns ns' : String) (fs fs' : FileSystem)
    (h : (t.Init a ns fs).2 = none) (h' : (t'.Init a' ns' fs').2 = none) :
    (t.Init a ns fs).1.GetUID = "token-file-provider"
  ∧ (t.Init a ns fs).1.GetUID = (t'.Init a' ns' fs').1.GetUID := by
  have k1 : (t.Init a ns fs).1.GetUID = "token-file-provider" := by
    rw [init_success_state t a ns fs h]
    rfl
  have k2 : (t'.Init a' ns' fs').1.GetUID = "token-file-provider" := by
    rw [init_success_state t' a' ns' fs' h']
    rfl
  exact ⟨k1, k1.trans k2.symm⟩

/-- Witness for C8 at two providers bound to different files and spaces. -/
theorem c8_uid_static_witness :
    (t0.Init aGood ("ns") fsW).1.GetUID = "token-file-provider"
  ∧ (t0.Init aGood ("ns") fsW).1.GetUID
      = (t0.Init aPlain ("ns2") fsW).1.GetUID :=
  c8_uid_static t0 t0 aGood aPlain ("ns") ("ns2") fsW fsW
    (by decide) (by decide)

/-- Iterating `GetCreds` any number of times leaves the provider unchanged:
its body assigns no receiver field. -/
lemma runGetCreds_eq (t : TokenCredentialProvider) (fs : FileSystem)
    (n : Nat) : runGetCreds t fs n = t := by
  induction n with
  | zero => rfl
  | succ n ih => simpa [runGetCreds, TokenCredentialProvider.GetCredsSt] using ih

/-- C9: `GetNamespace` and `GetUID` are total accessors returning the values
last bound by the all-fields constructor or by a successful `Init`, and any
number of intervening `GetCreds` calls leaves the provider state, and hence
the accessor results, untouched. -/
theorem c9_accessor_purity (a : Option VaultAuth) (ns uid : String)
    (fs : FileSystem) (n : Nat) (t : TokenCredentialProvider)
    (a' : VaultAuth) (ns' : String) :
    ((runGetCreds (NewTokenCredentialProvider a ns uid) fs n).GetNamespace = ns
      ∧ (runGetCreds (NewTokenCredentialProvider a ns uid) fs n).GetUID = uid)
  ∧ ((t.Init a' ns' fs).2 = none →
      (runGetCreds (t.Init a' ns' fs).1 fs n).GetNamespace = ns'
      ∧ (runGetCreds (t.Init a' ns' fs).1 fs n).GetUID
          = "token-file-provider") := by
  constructor
  · rw [runGetCreds_eq]
    exact ⟨rfl, rfl⟩
  · intro h
    rw [runGetCreds_eq, init_success_state t a' ns' fs h]
    exact ⟨rfl, rfl⟩

/-- Witness for C9 after three `GetCreds` calls. -/
theorem c9_accessor_purity_witness :
    ((runGetCreds (NewTokenCredentialProvider (some aGood) ("ns") ("u"))
        fsW 3).GetNamespace = "ns"
      ∧ (runGetCreds (NewTokenCredentialProvider (some aGood) ("ns") ("u"))
        fsW 3).GetUID = "u")
  ∧ ((runGetCreds (t0.Init aGood ("ns") fsW).1 fsW 3).GetNamespace = "ns"
      ∧ (runGetCreds (t0.Init aGood ("ns") fsW).1 fsW 3).GetUID
          = "token-file-provider") :=
  ⟨(c9_accessor_purity (some aGood) ("ns") ("u") fsW 3 t0 aGood ("ns")).1,
   (c9_accessor_purity (some aGood) ("ns") ("u") fsW 3 t0 aGood ("ns")).2
     (by decide)⟩

end Vault
